import Mathlib

/-!
Shallow embedding of the peace-lock crate (src/mutex.rs and src/rwlock.rs),
in its checked configuration (cfg `debug_assertions` or feature `check`).

State words are modelled as `Nat` values below `2 ^ 64` (a 64-bit `usize`);
the `AtomicBool` of `Mutex` is modelled as `Bool`.  Atomic operations are
modelled as pure state-transition functions; the interference other threads
can inject between the relaxed load and the compare-exchange of
`RwLock::lock_shared` is modelled by an explicit list of the state words the
compare-exchange observes on each loop iteration.  Panics are modelled with
`Except String`.
-/

deriving instance DecidableEq for Except

namespace PeaceLock

/-- Modulus of a 64-bit `usize`: state words live in `[0, 2 ^ 64)`. -/
def usizeMod : Nat := 2 ^ 64

/-- Largest representable 64-bit `usize` value; `checked_add` returns `None`
exactly when the mathematical sum exceeds it. -/
def usizeMax : Nat := usizeMod - 1

/-- Constant `WRITER_BIT` from src/rwlock.rs (`0b1000`). -/
def WRITER_BIT : Nat := 0b1000

/-- Constant `ONE_READER` from src/rwlock.rs (`0b10000`). -/
def ONE_READER : Nat := 0b10000

/-- The memory orderings of `std::sync::atomic::Ordering`, embedded as data so
that the ordering arguments the source passes to each atomic operation can be
stated and compared. -/
inductive AtomicOrdering where
  | relaxed
  | acquire
  | release
  | acqRel
  | seqCst
deriving DecidableEq, Repr

/-- The struct `Mutex<T>` from src/mutex.rs in the checked configuration:
an `AtomicBool` state flag plus the protected value. -/
structure Mutex (T : Type) where
  state : Bool
  value : T

/-- The struct `RwLock<T>` from src/rwlock.rs in the checked configuration:
an `AtomicUsize` state word plus the protected value. -/
structure RwLock (T : Type) where
  state : Nat
  value : T

namespace Mutex

/-- `Mutex::new` (src/mutex.rs): flag starts clear. -/
def new {T : Type} (val : T) : Mutex T :=
  ⟨false, val⟩

/-- `Mutex::into_inner` (src/mutex.rs): consumes the mutex and returns the
inner value, with no inspection of and no transition on the state flag. -/
def into_inner {T : Type} (m : Mutex T) : T :=
  m.value

/-- `Mutex::lock_exclusive` (src/mutex.rs):
`compare_exchange(false, true, Acquire, Relaxed).is_ok()` on the state flag.
Returns the success bit together with the resulting state flag. -/
def lock_exclusive (state : Bool) : Bool × Bool :=
  if state = false then (true, true) else (false, state)

/-- `Mutex::unlock_exclusive` (src/mutex.rs):
`compare_exchange(true, false, Acquire, Relaxed).is_ok()` on the state flag.
Returns the success bit together with the resulting state flag. -/
def unlock_exclusive (state : Bool) : Bool × Bool :=
  if state = true then (true, false) else (false, state)

/-- `Mutex::try_lock` (src/mutex.rs): `some` of the resulting state flag when
`lock_exclusive` succeeds (a guard is produced), `none` otherwise. -/
def try_lock (state : Bool) : Option Bool :=
  match lock_exclusive state with
  | (true, s) => some s
  | (false, _) => none

/-- `Mutex::lock` (src/mutex.rs), checked configuration: panics when
`lock_exclusive` fails, otherwise returns the resulting state flag. -/
def lock (state : Bool) : Except String Bool :=
  match lock_exclusive state with
  | (true, s) => Except.ok s
  | (false, _) => Except.error "The lock is already write locked"

/-- `Drop for MutexGuard` (src/mutex.rs): runs `unlock_exclusive`; the
resulting state flag. -/
def guard_drop (state : Bool) : Bool :=
  (unlock_exclusive state).2

/-- Success ordering the source passes to the compare-exchange in
`Mutex::lock_exclusive`. -/
def lock_exclusive_success_ordering : AtomicOrdering := AtomicOrdering.acquire

/-- Success ordering the source passes to the compare-exchange in
`Mutex::unlock_exclusive`. -/
def unlock_exclusive_success_ordering : AtomicOrdering := AtomicOrdering.acquire

end Mutex

namespace RwLock

/-- `RwLock::new` (src/rwlock.rs): state word starts at zero. -/
def new {T : Type} (val : T) : RwLock T :=
  ⟨0, val⟩

/-- `RwLock::into_inner` (src/rwlock.rs): consumes the lock and returns the
inner value, with no inspection of and no transition on the state word. -/
def into_inner {T : Type} (l : RwLock T) : T :=
  l.value

/-- `RwLock::lock_exclusive` (src/rwlock.rs):
`compare_exchange(0, WRITER_BIT, Acquire, Relaxed).is_ok()` on the state word.
Returns the success bit together with the resulting state word. -/
def lock_exclusive (state : Nat) : Bool × Nat :=
  if state = 0 then (true, WRITER_BIT) else (false, state)

/-- `RwLock::unlock_exclusive` (src/rwlock.rs):
`compare_exchange(WRITER_BIT, 0, Acquire, Relaxed).is_ok()` on the state word.
Returns the success bit together with the resulting state word. -/
def unlock_exclusive (state : Nat) : Bool × Nat :=
  if state = WRITER_BIT then (true, 0) else (false, state)

/-- Outcome of `RwLock::lock_shared` (src/rwlock.rs), carrying the state word
the lock holds when the function returns (or panics). -/
inductive SharedResult where
  | ok (newState : Nat)
  | writeLocked (state : Nat)
  | tooManyReaders (state : Nat)
deriving DecidableEq, Repr

/-- `RwLock::lock_shared` (src/rwlock.rs).  The first argument is the state
word the relaxed load observes on the current loop iteration; the list holds,
for each iteration, the state word the compare-exchange then observes (so an
entry differing from the loaded word is a concurrent modification that makes
the compare-exchange fail and the loop retry from that word; an exhausted list
means no further interference, so the compare-exchange succeeds).  Loop body:
if the loaded word has `WRITER_BIT` set, return failure at once; then
`checked_add(ONE_READER).expect("too many readers")`; then the
compare-exchange, succeeding exactly when the word is unchanged. -/
def lock_shared : Nat → List Nat → SharedResult
  | state, [] =>
    if state &&& WRITER_BIT ≠ 0 then
      SharedResult.writeLocked state
    else if usizeMax < state + ONE_READER then
      SharedResult.tooManyReaders state
    else
      SharedResult.ok (state + ONE_READER)
  | state, c :: rest =>
    if state &&& WRITER_BIT ≠ 0 then
      SharedResult.writeLocked state
    else if usizeMax < state + ONE_READER then
      SharedResult.tooManyReaders state
    else if c = state then
      SharedResult.ok (state + ONE_READER)
    else
      lock_shared c rest

/-- `RwLock::unlock_shared` (src/rwlock.rs):
`fetch_sub(ONE_READER, Release)`; wrapping subtraction on the 64-bit word,
unconditional. -/
def unlock_shared (state : Nat) : Nat :=
  ((usizeMod - ONE_READER) + state) % usizeMod

/-- `RwLock::try_write` (src/rwlock.rs): `some` of the resulting state word
when `lock_exclusive` succeeds (a write guard is produced), `none`
otherwise. -/
def try_write (state : Nat) : Option Nat :=
  match lock_exclusive state with
  | (true, s) => some s
  | (false, _) => none

/-- `RwLock::write` (src/rwlock.rs), checked configuration: panics when
`lock_exclusive` fails, otherwise returns the resulting state word. -/
def write (state : Nat) : Except String Nat :=
  match lock_exclusive state with
  | (true, s) => Except.ok s
  | (false, _) => Except.error "The lock is already write locked"

/-- `RwLock::try_read` (src/rwlock.rs): `ok (some _)` with the resulting
state word when `lock_shared` succeeds, `ok none` when it returns false, and
the propagated panic when `checked_add` overflows inside `lock_shared`. -/
def try_read (state : Nat) (interference : List Nat) :
    Except String (Option Nat) :=
  match lock_shared state interference with
  | SharedResult.ok s => Except.ok (some s)
  | SharedResult.writeLocked _ => Except.ok none
  | SharedResult.tooManyReaders _ => Except.error "too many readers"

/-- `RwLock::read` (src/rwlock.rs), checked configuration: panics when
`lock_shared` returns false, propagates the overflow panic, and otherwise
returns the resulting state word. -/
def read (state : Nat) (interference : List Nat) : Except String Nat :=
  match lock_shared state interference with
  | SharedResult.ok s => Except.ok s
  | SharedResult.writeLocked _ =>
      Except.error "The lock is already write locked"
  | SharedResult.tooManyReaders _ => Except.error "too many readers"

/-- `Drop for RwLockWriteGuard` (src/rwlock.rs): runs `unlock_exclusive`;
the resulting state word. -/
def write_guard_drop (state : Nat) : Nat :=
  (unlock_exclusive state).2

/-- `Drop for RwLockReadGuard` (src/rwlock.rs): runs `unlock_shared`. -/
def read_guard_drop (state : Nat) : Nat :=
  unlock_shared state

/-- Iterate `lock_shared` (with no interference) the given number of times,
threading the state word; `none` as soon as one acquisition fails. -/
def acquire_shared_n : Nat → Nat → Option Nat
  | s, 0 => some s
  | s, Nat.succ n =>
    match lock_shared s [] with
    | SharedResult.ok t => acquire_shared_n t n
    | _ => none

/-- Iterate `read_guard_drop` (`unlock_shared`) the given number of times. -/
def release_shared_n : Nat → Nat → Nat
  | s, 0 => s
  | s, Nat.succ n => release_shared_n (unlock_shared s) n

/-- Success ordering the source passes to the compare-exchange in
`RwLock::lock_exclusive`. -/
def lock_exclusive_success_ordering : AtomicOrdering := AtomicOrdering.acquire

/-- Success ordering the source passes to the compare-exchange in
`RwLock::unlock_exclusive`. -/
def unlock_exclusive_success_ordering : AtomicOrdering := AtomicOrdering.acquire

/-- Ordering of the load at the top of the `RwLock::lock_shared` loop. -/
def lock_shared_load_ordering : AtomicOrdering := AtomicOrdering.relaxed

/-- Success ordering the source passes to the compare-exchange in
`RwLock::lock_shared`. -/
def lock_shared_cas_success_ordering : AtomicOrdering := AtomicOrdering.acquire

/-- Ordering the source passes to the `fetch_sub` in
`RwLock::unlock_shared`. -/
def unlock_shared_ordering : AtomicOrdering := AtomicOrdering.release

end RwLock

/-! ### Helper lemmas shared between claims -/

/-- Any successful `lock_shared` run ends by adding exactly `ONE_READER` to
some loaded word that had `WRITER_BIT` clear and room for the increment. -/
theorem lock_shared_ok_shape :
    ∀ (i : List Nat) (s n : Nat),
      RwLock.lock_shared s i = RwLock.SharedResult.ok n →
      ∃ l, l &&& WRITER_BIT = 0 ∧ l + ONE_READER ≤ usizeMax ∧
        n = l + ONE_READER := by
  intro i
  induction i with
  | nil =>
    intro s n h
    simp only [RwLock.lock_shared] at h
    split_ifs at h with h1 h2
    exact ⟨s, by simpa using h1, Nat.not_lt.mp h2, by
      cases h
      rfl⟩
  | cons c rest ih =>
    intro s n h
    simp only [RwLock.lock_shared] at h
    split_ifs at h with h1 h2 h3
    · exact ⟨s, by simpa using h1, Nat.not_lt.mp h2, by
        cases h
        rfl⟩
    · exact ih c n h

/-- A successful `lock_shared` run with no interference adds `ONE_READER` to
the word it was started from, which had `WRITER_BIT` clear and room for the
increment. -/
theorem lock_shared_nil_ok :
    ∀ s t : Nat, RwLock.lock_shared s [] = RwLock.SharedResult.ok t →
      s &&& WRITER_BIT = 0 ∧ s + ONE_READER ≤ usizeMax ∧
        t = s + ONE_READER := by
  intro s t h
  simp only [RwLock.lock_shared] at h
  split_ifs at h with h1 h2
  cases h
  exact ⟨by simpa using h1, Nat.not_lt.mp h2, rfl⟩

/-- A run of `n` interference-free shared acquisitions that all succeed adds
`ONE_READER * n` to the word, and (when `n > 0`) ends below `usizeMax`. -/
theorem acquire_shared_n_formula :
    ∀ (n s0 s : Nat), RwLock.acquire_shared_n s0 n = some s →
      s = s0 + ONE_READER * n ∧ (0 < n → s ≤ usizeMax) := by
  intro n
  induction n with
  | zero =>
    intro s0 s h
    simp only [RwLock.acquire_shared_n] at h
    cases h
    exact ⟨by simp, by omega⟩
  | succ n ih =>
    intro s0 s h
    simp only [RwLock.acquire_shared_n] at h
    rcases hls : RwLock.lock_shared s0 [] with t | u | u <;> rw [hls] at h
    · obtain ⟨hw, hlm, ht⟩ := lock_shared_nil_ok s0 t hls
      obtain ⟨heq, hle⟩ := ih t s h
      constructor
      · simp only [ONE_READER] at heq ht ⊢
        omega
      · intro _
        rcases Nat.eq_zero_or_pos n with hn | hn
        · subst hn
          simp only [ONE_READER] at heq ht hlm ⊢
          omega
        · exact hle hn
    · simp at h
    · simp at h

/-- Releasing `n` reader increments from a word that holds them (without
reaching the modulus) subtracts `ONE_READER * n` exactly. -/
theorem release_shared_n_formula :
    ∀ (n t : Nat), t + ONE_READER * n < usizeMod →
      RwLock.release_shared_n (t + ONE_READER * n) n = t := by
  intro n
  induction n with
  | zero =>
    intro t _
    simp [RwLock.release_shared_n]
  | succ n ih =>
    intro t h
    simp only [RwLock.release_shared_n]
    have hu : RwLock.unlock_shared (t + ONE_READER * (n + 1)) =
        t + ONE_READER * n := by
      simp only [RwLock.unlock_shared, usizeMod, ONE_READER] at h ⊢
      omega
    rw [hu]
    exact ih t (by simp only [usizeMod, ONE_READER] at h ⊢; omega)

/-! ### Claims -/

/-- C1: shared/exclusive exclusivity of the RwLock state machine.  For every
state word with reader count greater than zero, `lock_exclusive` (the
compare-and-set behind `try_write`) fails and leaves the word unchanged; for
every state word with `WRITER_BIT` set, `lock_shared` (behind `try_read`)
fails and leaves the word unchanged, whatever interference occurs. -/
theorem claim_c1_shared_exclusive_exclusivity :
    (∀ s : Nat, 0 < s / ONE_READER →
      RwLock.try_write s = none ∧ RwLock.lock_exclusive s = (false, s)) ∧
    (∀ (s : Nat) (i : List Nat), s &&& WRITER_BIT ≠ 0 →
      RwLock.try_read s i = Except.ok none ∧
        RwLock.lock_shared s i = RwLock.SharedResult.writeLocked s) := by
  constructor
  · intro s hs
    have hne : s ≠ 0 := by
      simp only [ONE_READER] at hs
      omega
    constructor
    · simp [RwLock.try_write, RwLock.lock_exclusive, hne]
    · simp [RwLock.lock_exclusive, hne]
  · intro s i hw
    have hls : RwLock.lock_shared s i = RwLock.SharedResult.writeLocked s := by
      cases i <;> simp [RwLock.lock_shared, hw]
    exact ⟨by simp [RwLock.try_read, hls], hls⟩

/-- Closed witness for C1: reader count 1 (word 16) blocks `try_write`;
writer bit set (word 8) blocks `try_read`. -/
theorem claim_c1_witness :
    (RwLock.try_write 16 = none ∧ RwLock.lock_exclusive 16 = (false, 16)) ∧
    (RwLock.try_read 8 [] = Except.ok none ∧
      RwLock.lock_shared 8 [] = RwLock.SharedResult.writeLocked 8) :=
  ⟨claim_c1_shared_exclusive_exclusivity.1 16 (by decide),
   claim_c1_shared_exclusive_exclusivity.2 8 [] (by decide)⟩

/-- C2: `Mutex::try_lock` in the checked configuration is a single
compare-and-set of the flag from `false` to `true`: from a clear flag it sets
the flag and produces a guard, from a set flag it returns `none` and leaves
the flag set; `lock_exclusive` is a plain (non-looping) function, so there is
no retry and no waiting. -/
theorem claim_c2_mutex_try_lock_single_cas :
    Mutex.try_lock false = some true ∧
    Mutex.try_lock true = none ∧
    Mutex.lock_exclusive false = (true, true) ∧
    Mutex.lock_exclusive true = (false, true) := by
  decide

/-- C3 as stated is falsified by the overflow word: at state
`2 ^ 64 - ONE_READER` (with no interference) the unconditional `read` panics,
yet the fallible `try_read` does not return `None` on that state — it raises
the same "too many readers" panic itself. -/
theorem claim_c3_counterexample :
    RwLock.read (usizeMod - ONE_READER) [] =
      Except.error "too many readers" ∧
    RwLock.try_read (usizeMod - ONE_READER) [] ≠ Except.ok none := by
  decide

/-- C3 (amended): in the checked configuration each unconditional entry
point panics with "The lock is already write locked" exactly when its
fallible counterpart returns `None` on the same state; the "too many
readers" overflow panic of `read` occurs exactly when `try_read` itself
panics with it; and otherwise both forms return a guard with the same state
transition. -/
theorem claim_c3_lock_panic_matches_try :
    (∀ s : Bool,
      ((Mutex.lock s = Except.error "The lock is already write locked") ↔
        Mutex.try_lock s = none) ∧
      ∀ t : Bool, Mutex.lock s = Except.ok t ↔ Mutex.try_lock s = some t) ∧
    (∀ s : Nat,
      ((RwLock.write s = Except.error "The lock is already write locked") ↔
        RwLock.try_write s = none) ∧
      ∀ t : Nat, RwLock.write s = Except.ok t ↔
        RwLock.try_write s = some t) ∧
    (∀ (s : Nat) (i : List Nat),
      ((RwLock.read s i = Except.error "The lock is already write locked") ↔
        RwLock.try_read s i = Except.ok none) ∧
      ((RwLock.read s i = Except.error "too many readers") ↔
        RwLock.try_read s i = Except.error "too many readers") ∧
      ∀ t : Nat, RwLock.read s i = Except.ok t ↔
        RwLock.try_read s i = Except.ok (some t)) := by
  have hne : ("The lock is already write locked" : String) ≠
      "too many readers" := by decide
  refine ⟨by decide, ?_, ?_⟩
  · intro s
    by_cases hs : s = 0 <;>
      simp [RwLock.write, RwLock.try_write, RwLock.lock_exclusive, hs]
  · intro s i
    rcases hc : RwLock.lock_shared s i with n | u | u <;>
      simp [RwLock.read, RwLock.try_read, hc, hne, hne.symm]

/-- C4: asymmetry of the `lock_shared` loop.  A loaded word with
`WRITER_BIT` set returns failure immediately with no retry, whatever
interference follows; a failed compare-and-set (the word changed between
load and compare-and-set) reloads and retries; and any success adds exactly
`ONE_READER` to the word it succeeded from. -/
theorem claim_c4_lock_shared_asymmetry :
    (∀ (s : Nat) (i : List Nat), s &&& WRITER_BIT ≠ 0 →
      RwLock.lock_shared s i = RwLock.SharedResult.writeLocked s) ∧
    (∀ (s c : Nat) (rest : List Nat), s &&& WRITER_BIT = 0 →
      s + ONE_READER ≤ usizeMax → c ≠ s →
      RwLock.lock_shared s (c :: rest) = RwLock.lock_shared c rest) ∧
    (∀ (s : Nat) (i : List Nat) (n : Nat),
      RwLock.lock_shared s i = RwLock.SharedResult.ok n →
      ∃ l, l &&& WRITER_BIT = 0 ∧ n = l + ONE_READER) := by
  refine ⟨fun s i hw => by cases i <;> simp [RwLock.lock_shared, hw],
    ?_, ?_⟩
  · intro s c rest h1 h2 h3
    simp [RwLock.lock_shared, h1, Nat.not_lt.mpr h2, h3]
  · intro s i n h
    obtain ⟨l, hl, _, hn⟩ := lock_shared_ok_shape i s n h
    exact ⟨l, hl, hn⟩

/-- Closed witness for C4: writer-present word 8 fails at once even with
interference pending; interference 16 on word 0 makes the compare-and-set
fail and the loop retry from 16; the retried run succeeds with word
`16 + ONE_READER = 32`. -/
theorem claim_c4_witness :
    RwLock.lock_shared 8 [0] = RwLock.SharedResult.writeLocked 8 ∧
    RwLock.lock_shared 0 [16] = RwLock.lock_shared 16 [] ∧
    ∃ l, l &&& WRITER_BIT = 0 ∧ 32 = l + ONE_READER :=
  ⟨claim_c4_lock_shared_asymmetry.1 8 [0] (by decide),
   claim_c4_lock_shared_asymmetry.2.1 0 16 [] (by decide) (by decide)
     (by decide),
   claim_c4_lock_shared_asymmetry.2.2 16 [] 32 (by decide)⟩

/-- C5 as stated is falsified by a word with the reader-count field at its
maximum but `WRITER_BIT` also set (`2 ^ 64 - 8`): adding `ONE_READER` would
overflow, yet shared acquisition returns the ordinary write-locked failure
(`None` from `try_read`), not the fatal "too many readers" condition. -/
theorem claim_c5_counterexample :
    usizeMax < (usizeMod - 8) + ONE_READER ∧
    (usizeMod - 8) / ONE_READER = 2 ^ 60 - 1 ∧
    RwLock.lock_shared (usizeMod - 8) [] =
      RwLock.SharedResult.writeLocked (usizeMod - 8) ∧
    RwLock.lock_shared (usizeMod - 8) [] ≠
      RwLock.SharedResult.tooManyReaders (usizeMod - 8) := by
  decide

/-- C5 (amended): for every state word with `WRITER_BIT` clear for which
adding `ONE_READER` would exceed `usizeMax`, shared acquisition raises the
fatal "too many readers" condition (it neither wraps nor returns `None`),
whatever interference occurs; and for every word below that limit with
`WRITER_BIT` clear, the interference-free increment succeeds without this
condition. -/
theorem claim_c5_reader_overflow_fatal :
    (∀ (s : Nat) (i : List Nat), s &&& WRITER_BIT = 0 →
      usizeMax < s + ONE_READER →
      RwLock.lock_shared s i = RwLock.SharedResult.tooManyReaders s) ∧
    (∀ s : Nat, s &&& WRITER_BIT = 0 → s + ONE_READER ≤ usizeMax →
      RwLock.lock_shared s [] = RwLock.SharedResult.ok (s + ONE_READER)) := by
  constructor
  · intro s i h1 h2
    cases i <;> simp [RwLock.lock_shared, h1, h2]
  · intro s h1 h2
    simp [RwLock.lock_shared, h1, Nat.not_lt.mpr h2]

/-- Closed witness for C5: the all-readers word `2 ^ 64 - ONE_READER` (writer
bit clear) trips the fatal condition; the all-zero word increments to
`ONE_READER`. -/
theorem claim_c5_witness :
    ((usizeMod - ONE_READER) &&& WRITER_BIT = 0 ∧
      usizeMax < (usizeMod - ONE_READER) + ONE_READER ∧
      RwLock.lock_shared (usizeMod - ONE_READER) [] =
        RwLock.SharedResult.tooManyReaders (usizeMod - ONE_READER)) ∧
    RwLock.lock_shared 0 [] = RwLock.SharedResult.ok ONE_READER :=
  ⟨⟨by decide, by decide,
    claim_c5_reader_overflow_fatal.1 (usizeMod - ONE_READER) [] (by decide)
      (by decide)⟩,
   claim_c5_reader_overflow_fatal.2 0 (by decide) (by decide)⟩

/-- C6: starting from the all-zero word, `n` successful interference-free
shared acquisitions followed by `n` shared releases (the read-guard drop)
return the state word exactly to all-zero. -/
theorem claim_c6_n_acquires_n_releases :
    ∀ (n s : Nat), RwLock.acquire_shared_n 0 n = some s →
      RwLock.release_shared_n s n = 0 := by
  intro n s h
  obtain ⟨heq, hle⟩ := acquire_shared_n_formula n 0 s h
  rcases Nat.eq_zero_or_pos n with hn | hn
  · subst hn
    simp only [ONE_READER] at heq
    have hs : s = 0 := by omega
    subst hs
    simp [RwLock.release_shared_n]
  · rw [heq]
    refine release_shared_n_formula n 0 ?_
    have hmax := hle hn
    simp only [ONE_READER, usizeMod, usizeMax] at heq hmax ⊢
    omega

/-- Closed witness for C6: two acquisitions from zero reach word 32, and two
releases return it to zero. -/
theorem claim_c6_witness :
    RwLock.acquire_shared_n 0 2 = some 32 ∧
    RwLock.release_shared_n 32 2 = 0 :=
  ⟨by decide, claim_c6_n_acquires_n_releases 2 32 (by decide)⟩

/-- C7: release enables re-acquisition.  After any successful acquisition,
dropping the guard (which runs the corresponding unlock) restores a state
from which the same kind of acquisition succeeds again: for `Mutex` and for
`RwLock::try_write` the re-acquisition returns a guard, and for
`RwLock::try_read` it returns a guard adding `ONE_READER` back. -/
theorem claim_c7_release_enables_reacquisition :
    (∀ (s t : Bool), Mutex.try_lock s = some t →
      (Mutex.try_lock (Mutex.guard_drop t)).isSome = true) ∧
    (∀ (s t : Nat), RwLock.try_write s = some t →
      (RwLock.try_write (RwLock.write_guard_drop t)).isSome = true) ∧
    (∀ (s : Nat) (i : List Nat) (t : Nat),
      RwLock.try_read s i = Except.ok (some t) →
      RwLock.try_read (RwLock.read_guard_drop t) [] =
        Except.ok (some (RwLock.read_guard_drop t + ONE_READER))) := by
  refine ⟨by decide, ?_, ?_⟩
  · intro s t h
    have hs : s = 0 := by
      by_contra hs
      simp [RwLock.try_write, RwLock.lock_exclusive, hs] at h
    subst hs
    have ht : t = WRITER_BIT := by
      have := h
      simp [RwLock.try_write, RwLock.lock_exclusive] at this
      omega
    subst ht
    decide
  · intro s i t h
    rcases hc : RwLock.lock_shared s i with n | u | u
    · have hnt : n = t := by simpa [RwLock.try_read, hc] using h
      subst hnt
      obtain ⟨l, hl, hlm, hn⟩ := lock_shared_ok_shape i s n hc
      subst hn
      have hdrop : RwLock.read_guard_drop (l + ONE_READER) = l := by
        have h16 : l + ONE_READER ≤ usizeMax := hlm
        simp only [RwLock.read_guard_drop, RwLock.unlock_shared, ONE_READER,
          usizeMod, usizeMax] at h16 ⊢
        omega
      rw [hdrop]
      simp [RwLock.try_read, RwLock.lock_shared, hl, Nat.not_lt.mpr hlm]
    · simp [RwLock.try_read, hc] at h
    · simp [RwLock.try_read, hc] at h

/-- Closed witness for C7: re-acquisition succeeds after dropping the mutex
guard, the write guard, and the read guard obtained from the all-zero
state. -/
theorem claim_c7_witness :
    (Mutex.try_lock (Mutex.guard_drop true)).isSome = true ∧
    (RwLock.try_write (RwLock.write_guard_drop WRITER_BIT)).isSome = true ∧
    RwLock.try_read (RwLock.read_guard_drop ONE_READER) [] =
      Except.ok (some (RwLock.read_guard_drop ONE_READER + ONE_READER)) :=
  ⟨claim_c7_release_enables_reacquisition.1 false true (by decide),
   claim_c7_release_enables_reacquisition.2.1 0 WRITER_BIT (by decide),
   claim_c7_release_enables_reacquisition.2.2 0 [] ONE_READER (by decide)⟩

/-- C8 is a code bug: the spec says every release operation uses release
ordering, but the source passes `Ordering::Acquire` as the success ordering
of the compare-exchange in both `Mutex::unlock_exclusive` and
`RwLock::unlock_exclusive`; only `RwLock::unlock_shared` uses
`Ordering::Release`.  The acquisition operations do all use acquire ordering
on success, as the spec says. -/
theorem claim_c8_unlock_exclusive_ordering_is_acquire :
    Mutex.unlock_exclusive_success_ordering = AtomicOrdering.acquire ∧
    RwLock.unlock_exclusive_success_ordering = AtomicOrdering.acquire ∧
    RwLock.unlock_shared_ordering = AtomicOrdering.release ∧
    Mutex.lock_exclusive_success_ordering = AtomicOrdering.acquire ∧
    RwLock.lock_exclusive_success_ordering = AtomicOrdering.acquire ∧
    RwLock.lock_shared_cas_success_ordering = AtomicOrdering.acquire ∧
    AtomicOrdering.acquire ≠ AtomicOrdering.release := by
  decide

/-- C9: construction and consumption round-trip.  `into_inner` returns the
value passed to `new`, and it reads the value field only — the state word is
arbitrary and untouched. -/
theorem claim_c9_into_inner_roundtrip :
    (∀ (α : Type) (v : α), (Mutex.new v).into_inner = v) ∧
    (∀ (α : Type) (s : Bool) (v : α), Mutex.into_inner ⟨s, v⟩ = v) ∧
    (∀ (α : Type) (v : α), (RwLock.new v).into_inner = v) ∧
    (∀ (α : Type) (s : Nat) (v : α), RwLock.into_inner ⟨s, v⟩ = v) :=
  ⟨fun _ _ => rfl, fun _ _ _ => rfl, fun _ _ => rfl, fun _ _ _ => rfl⟩

/-- C10: `unlock_shared` never fails and wraps on underflow: it is a total
function subtracting `ONE_READER` modulo `2 ^ 64`, and applied to the
all-zero word it yields `2 ^ 64 - ONE_READER`, a word with `WRITER_BIT`
clear and reader count `2 ^ 60 - 1`. -/
theorem claim_c10_unlock_shared_wraps :
    RwLock.unlock_shared 0 = usizeMod - ONE_READER ∧
    (usizeMod - ONE_READER) &&& WRITER_BIT = 0 ∧
    (usizeMod - ONE_READER) / ONE_READER = 2 ^ 60 - 1 ∧
    ∀ s : Nat, RwLock.unlock_shared s = (s + (usizeMod - ONE_READER)) % usizeMod := by
  refine ⟨by decide, by decide, by decide, fun s => ?_⟩
  rw [RwLock.unlock_shared, Nat.add_comm]

end PeaceLock
